/-
Verification of the retrieval-then-synthesis orchestration of the
perplexity-mini repository (Next.js/TypeScript web-search variant).

Shallow embedding: the pure data flow of `src/lib/search.ts`,
`src/lib/openrouter.ts`, `src/app/api/synthesize/route.ts` and
`src/components/SearchInterface.tsx` is translated into Lean functions.
External effects (HTTP responses from the OpenRouter backend, the browser
fetch of `/api/synthesize`, the retrieval promise) are passed in as explicit
outcome values, and module-level mutable state (the cached client singleton)
is threaded as explicit state. JavaScript truthiness of the involved values
(`!query` for strings, `!searchResults` for possibly-missing arrays,
`!apiKey`) is modelled explicitly: an empty string is falsy, an empty array
is truthy.
-/
import Mathlib

set_option maxRecDepth 20000

/-- Prefix test on character lists: the first argument is a leading
segment of the second. -/
def charsPrefix : List Char → List Char → Bool
  | [], _ => true
  | _ :: _, [] => false
  | a :: t, b :: u => a == b && charsPrefix t u

/-- JavaScript `String.prototype.includes`: `strIncludes s sub` is true iff
`sub` occurs as a contiguous substring of `s` (true for the empty `sub`):
a prefix match is tried at every start position. -/
def strIncludes (s sub : String) : Bool :=
  go sub.data s.data
where
  /-- Tries a prefix match at each successive start position. -/
  go (sub : List Char) : List Char → Bool
    | [] => charsPrefix sub []
    | a :: t => charsPrefix sub (a :: t) || go sub t

/-- JavaScript `Array.prototype.map((x, index) => ...)` with the running
index, starting from `start`. -/
def mapWithIndexFrom (f : Nat → α → β) : Nat → List α → List β
  | _, [] => []
  | i, a :: t => f i a :: mapWithIndexFrom f (i + 1) t

/-- JavaScript `Array.prototype.map((x, index) => ...)`. -/
def mapWithIndex (f : Nat → α → β) (l : List α) : List β :=
  mapWithIndexFrom f 0 l

/-- JavaScript `String.prototype.toLowerCase` (ASCII range, which covers
every keyword of the mock table): lowercases each character. -/
def strToLower (s : String) : String :=
  String.mk (s.data.map Char.toLower)

/-- JavaScript `String.prototype.trim`: strips leading and trailing
whitespace. -/
def strTrim (s : String) : String :=
  String.mk (((s.data.dropWhile Char.isWhitespace).reverse.dropWhile Char.isWhitespace).reverse)

/-- Interface `SearchResult` of `src/lib/search.ts`. -/
structure SearchResult where
  title : String
  url : String
  snippet : String
  domain : String
deriving DecidableEq, Repr

/-- Interface `SearchResponse` of `src/lib/search.ts`. -/
structure SearchResponse where
  results : List SearchResult
  totalResults : Nat
deriving DecidableEq, Repr

/-- First mock entry under the keyword "climate change". -/
def nasaResult : SearchResult :=
  { title := "Climate Change Evidence and Impacts | NASA"
    url := "https://climate.nasa.gov/effects/"
    snippet := "Climate change is causing measurable changes to Earth's systems. Scientists have been tracking these changes for decades, documenting rising temperatures, melting ice sheets, and changing precipitation patterns."
    domain := "climate.nasa.gov" }

/-- Second mock entry under the keyword "climate change". -/
def unResult : SearchResult :=
  { title := "What is Climate Change? | United Nations"
    url := "https://www.un.org/en/climatechange/what-is-climate-change"
    snippet := "Climate change refers to long-term shifts in temperatures and weather patterns. While climate changes may be natural, since the 1800s, human activities have been the main driver of climate change."
    domain := "un.org" }

/-- Third mock entry under the keyword "climate change". -/
def epaResult : SearchResult :=
  { title := "Climate Change Impacts | EPA"
    url := "https://www.epa.gov/climate-impacts"
    snippet := "Climate change impacts human health and wellbeing through more extreme weather events and wildfires, decreased air quality, and diseases transmitted by insects, food, and water."
    domain := "epa.gov" }

/-- First mock entry under the keyword "artificial intelligence". -/
def ibmResult : SearchResult :=
  { title := "What is Artificial Intelligence (AI)? | IBM"
    url := "https://www.ibm.com/topics/artificial-intelligence"
    snippet := "Artificial intelligence leverages computers and machines to mimic the problem-solving and decision-making capabilities of the human mind."
    domain := "ibm.com" }

/-- Second mock entry under the keyword "artificial intelligence". -/
def stanfordResult : SearchResult :=
  { title := "Artificial Intelligence | Stanford HAI"
    url := "https://hai.stanford.edu/what-ai"
    snippet := "AI is a broad field of computer science concerned with building smart machines capable of performing tasks that typically require human intelligence."
    domain := "stanford.edu" }

/-- Table `mockSearchResults` of `src/lib/search.ts`, as the ordered key/value
pairs that `Object.entries` yields (object insertion order). -/
def mockSearchResults : List (String × List SearchResult) :=
  [("climate change", [nasaResult, unResult, epaResult]),
   ("artificial intelligence", [ibmResult, stanfordResult])]

/-- One hexadecimal digit, upper case, as `encodeURIComponent` emits. -/
def hexDigitChar (n : Nat) : Char :=
  if n < 10 then Char.ofNat (48 + n) else Char.ofNat (55 + n)

/-- Characters that `encodeURIComponent` leaves unescaped:
`A-Z a-z 0-9 - _ . ! ~ * ' ( )`. -/
def uriUnreserved (c : Char) : Bool :=
  (65 ≤ c.toNat && c.toNat ≤ 90) || (97 ≤ c.toNat && c.toNat ≤ 122) ||
  (48 ≤ c.toNat && c.toNat ≤ 57) ||
  c = Char.ofNat 45 || c = Char.ofNat 95 || c = Char.ofNat 46 ||
  c = Char.ofNat 33 || c = Char.ofNat 126 || c = Char.ofNat 42 ||
  c = Char.ofNat 39 || c = Char.ofNat 40 || c = Char.ofNat 41

/-- Percent-encodes the UTF-8 bytes of one character. -/
def percentEncodeChar (c : Char) : String :=
  String.join ((String.toUTF8 (String.singleton c)).toList.map
    (fun b => String.mk [Char.ofNat 37, hexDigitChar (b.toNat / 16), hexDigitChar (b.toNat % 16)]))

/-- JavaScript builtin `encodeURIComponent` (external standard-library
collaborator of `searchWeb`): percent-encodes every character outside the
unreserved set. -/
def encodeURIComponent (s : String) : String :=
  String.join (s.data.map (fun c =>
    if uriUnreserved c then String.singleton c else percentEncodeChar c))

/-- JavaScript `query.replace(/\s+/g, '-')`: each maximal run of whitespace
becomes a single dash. -/
def replaceWhitespaceRunsWithDash (s : String) : String :=
  String.mk (go false s.data)
where
  /-- Walks the character list; the flag records whether the previous
  character was whitespace (so a run emits only one dash). -/
  go : Bool → List Char → List Char
    | _, [] => []
    | prevWs, c :: t =>
      if c.isWhitespace then
        (if prevWs then [] else [Char.ofNat 45]) ++ go true t
      else
        c :: go false t

/-- The two generic fallback results that `searchWeb` substitutes when no
mock keyword matches (`src/lib/search.ts`, the `results.length === 0`
branch). -/
def genericResults (query : String) : List SearchResult :=
  [{ title := "Search Results for \"" ++ query ++ "\"",
     url := "https://example.com/search?q=" ++ encodeURIComponent query,
     snippet := "This is a simulated search result for the query \"" ++ query ++ "\". In a real implementation, this would be replaced with actual web search results from APIs like Brave Search or SerpAPI.",
     domain := "example.com" },
   { title := query ++ " - Research and Analysis",
     url := "https://research.example.com/" ++ replaceWhitespaceRunsWithDash query,
     snippet := "Comprehensive research and analysis on " ++ query ++ ". This mock result demonstrates how search results would be displayed in the application.",
     domain := "research.example.com" }]

/-- The keyword-matching loop of `searchWeb`: starting from `[]`, for each
`[keyword, mockResults]` of `Object.entries(mockSearchResults)`, append
`mockResults` when the lowercased query includes the keyword. -/
def matchedResults (query : String) : List SearchResult :=
  mockSearchResults.foldl
    (fun results kv => if strIncludes (strToLower query) kv.1 then results ++ kv.2 else results)
    []

/-- Function `searchWeb` of `src/lib/search.ts` (the simulated delay is a pure no-op;
everything else is data flow): keyword-matched mock results, generic
fallback when none matched, truncated to 10 for the `results` field while
`totalResults` reports the pre-truncation length. -/
def searchWeb (query : String) : SearchResponse :=
  let results := matchedResults query
  let results := if results.length = 0 then genericResults query else results
  { results := results.take 10, totalResults := results.length }

/-- Message role of the `ChatMessage` interface in `src/lib/openrouter.ts`. -/
inductive Role where
  | system
  | user
  | assistant
deriving DecidableEq, Repr

/-- Interface `ChatMessage` of `src/lib/openrouter.ts`. -/
structure ChatMessage where
  role : Role
  content : String
deriving DecidableEq, Repr

/-- Class `OpenRouterClient` of `src/lib/openrouter.ts`, reduced to the state it
carries: the API key captured at construction. -/
structure OpenRouterClient where
  apiKey : String
deriving DecidableEq, Repr

/-- Outcome of the single HTTPS request inside `OpenRouterClient.chat`, as
seen by the local error handling: a 2xx response with a first choice, a 2xx
response without choices, or `!response.ok` with a status code and an
optional `errorData.error.message`. -/
inductive HttpOutcome where
  | ok (content : String)
  | okNoChoices
  | httpError (status : Nat) (msg : Option String)
deriving DecidableEq, Repr

/-- The message of the error that `chat` throws on `!response.ok`:
`OpenRouter API error: ${status} - ${errorData.error?.message || 'Unknown error'}`
(a missing or empty backend message is falsy, giving `Unknown error`). -/
def chatErrorMessage (status : Nat) (msg : Option String) : String :=
  "OpenRouter API error: " ++ toString status ++ " - " ++
    (match msg with
     | none => "Unknown error"
     | some m => if m = "" then "Unknown error" else m)

/-- Method `OpenRouterClient.chat` of `src/lib/openrouter.ts`: one request, no
retry; `.error` carries the message of the thrown `Error`. -/
def chat (outcome : HttpOutcome) : Except String String :=
  match outcome with
  | .ok content => .ok content
  | .okNoChoices => .error "No response generated from the model"
  | .httpError status msg => .error (chatErrorMessage status msg)

/-- The fixed system prompt of `synthesizeSearchResults`. -/
def systemPrompt : String :=
  "You are an AI research assistant that synthesizes information from web search results to provide comprehensive, accurate answers. Your task is to:\n\n1. Analyze the provided search results\n2. Extract the most relevant and accurate information\n3. Synthesize a comprehensive answer that addresses the user's question\n4. Maintain objectivity and cite sources appropriately\n5. If there are conflicting information, mention the different perspectives\n6. Keep the response concise but thorough\n\nFormat your response in a clear, well-structured manner with proper citations using [1], [2], etc. that correspond to the source URLs provided."

/-- One entry of the grounding context, built in `synthesizeSearchResults`
for the result at 0-based `index`:
`[${index + 1}] ${result.title}\nURL: ${result.url}\nContent: ${result.snippet}\n`. -/
def contextEntry (index : Nat) (result : SearchResult) : String :=
  "[" ++ toString (index + 1) ++ "] " ++ result.title ++ "\nURL: " ++ result.url ++
    "\nContent: " ++ result.snippet ++ "\n"

/-- Value `searchContext` of `synthesizeSearchResults`: the per-result entries in
input order, joined with `'\n'`. -/
def searchContext (searchResults : List SearchResult) : String :=
  String.intercalate "\n" (mapWithIndex contextEntry searchResults)

/-- The user prompt of `synthesizeSearchResults`:
question, grounding context, closing instruction. -/
def userPrompt (query : String) (searchResults : List SearchResult) : String :=
  "Question: " ++ query ++ "\n\nSearch Results:\n" ++ searchContext searchResults ++
    "\n\nPlease provide a comprehensive answer based on these search results. Include relevant citations using the format [1], [2], etc."

/-- The message list that `synthesizeSearchResults` passes to `chat`. -/
def synthesizeMessages (query : String) (searchResults : List SearchResult) : List ChatMessage :=
  [{ role := .system, content := systemPrompt },
   { role := .user, content := userPrompt query searchResults }]

/-- Method `synthesizeSearchResults` of `src/lib/openrouter.ts`: builds the two
messages and forwards the single `chat` call's outcome. -/
def synthesizeSearchResults (query : String) (searchResults : List SearchResult)
    (outcome : HttpOutcome) : Except String String :=
  let _messages := synthesizeMessages query searchResults
  chat outcome

/-- Function `getOpenRouterClient` of `src/lib/openrouter.ts`. The module-level
`openRouterClient` variable is the explicit `cached` state (input and, on
success, output); `envKey` is `process.env.OPENROUTER_API_KEY`, where
`none` is an unset variable and `some ""` a variable set to the empty
string — both falsy under the `!apiKey` check. -/
def getOpenRouterClient (envKey : Option String) (cached : Option OpenRouterClient) :
    Except String (OpenRouterClient × Option OpenRouterClient) :=
  match cached with
  | some c => .ok (c, some c)
  | none =>
    match envKey with
    | none => .error "OpenRouter API key not configured"
    | some k =>
      if k = "" then .error "OpenRouter API key not configured"
      else .ok ({ apiKey := k }, some { apiKey := k })

/-- Shape of a `NextResponse.json` reply of the synthesize route: HTTP
status plus either an `answer` or an `error` field. -/
structure ApiResponse where
  status : Nat
  answer : Option String
  error : Option String
deriving DecidableEq, Repr

/-- Handler `POST` of `src/app/api/synthesize/route.ts`, with the externally
observable control flow recorded: whether `getOpenRouterClient` was
reached, and how many `chat` requests were issued. -/
structure PostTrace where
  response : ApiResponse
  getClientCalled : Bool
  chatAttempts : Nat
deriving DecidableEq, Repr

/-- The catch block of `POST`: an error whose message includes
`'API key not configured'` becomes the distinct configuration-error
response; every other `Error` becomes a 500 with its raw message. -/
def catchResponse (msg : String) : ApiResponse :=
  if strIncludes msg "API key not configured" then
    { status := 500, answer := none, error := some "OpenRouter API key not configured" }
  else
    { status := 500, answer := none, error := some msg }

/-- The distinct configuration-error response of the route
(`{ error: 'OpenRouter API key not configured' }`, status 500). -/
def configErrorResponse : ApiResponse :=
  { status := 500, answer := none, error := some "OpenRouter API key not configured" }

/-- Handler `POST` of `src/app/api/synthesize/route.ts`. The parsed request body is
`query` (`none` = field absent) and `searchResults` (`none` = field
absent); `!query` is true for an absent or empty string, `!searchResults`
only for an absent field (an empty array is truthy). `envKey`/`cached` feed
`getOpenRouterClient`; `outcome` is the backend response consumed by the
single `chat` call inside `synthesizeSearchResults`. -/
def POST (query : Option String) (searchResults : Option (List SearchResult))
    (envKey : Option String) (cached : Option OpenRouterClient)
    (outcome : HttpOutcome) : PostTrace :=
  let queryFalsy : Bool := match query with | none => true | some q => q == ""
  let resultsFalsy : Bool := searchResults.isNone
  if queryFalsy || resultsFalsy then
    { response := { status := 400, answer := none,
                    error := some "Query and search results are required" },
      getClientCalled := false, chatAttempts := 0 }
  else
    match getOpenRouterClient envKey cached with
    | .error e =>
      { response := catchResponse e, getClientCalled := true, chatAttempts := 0 }
    | .ok _ =>
      match synthesizeSearchResults (query.getD "") (searchResults.getD []) outcome with
      | .ok content =>
        { response := { status := 200, answer := some content, error := none },
          getClientCalled := true, chatAttempts := 1 }
      | .error e =>
        { response := catchResponse e, getClientCalled := true, chatAttempts := 1 }

/-- Interface `Citation` of `src/components/SearchInterface.tsx`. -/
structure Citation where
  number : Nat
  title : String
  url : String
  domain : String
deriving DecidableEq, Repr

/-- The citation table built in `handleSearch`
(`searchResults.results.map((result, index) => ({ number: index + 1, ... }))`). -/
def mkCitations (results : List SearchResult) : List Citation :=
  mapWithIndex
    (fun index result =>
      { number := index + 1, title := result.title, url := result.url,
        domain := result.domain })
    results

/-- Outcome of the client-side `fetch('/api/synthesize', ...)` as
`handleSearch` reads it: `ok`/`status` of the response, and the `answer`
field of the parsed JSON body. -/
structure FetchOutcome where
  ok : Bool
  status : Nat
  answer : String
deriving DecidableEq, Repr

/-- The component state that one `handleSearch` run leaves behind, plus
which pipeline steps were reached. -/
structure UIState where
  errorMsg : Option String
  answer : Option String
  citations : Option (List Citation)
  searchCalled : Bool
  synthesizeCalled : Bool
deriving DecidableEq, Repr

/-- Handler `handleSearch` of `src/components/SearchInterface.tsx`. The awaited
`searchWeb(query)` promise is passed as `searchOutcome` (`.error e` = the
retrieval source rejected with message `e`; the in-repo mock source always
resolves); `api` is the `fetch('/api/synthesize')` outcome. A single
try/catch surrounds retrieval, the synthesize call and rendering; the catch
stores the error message in component state. -/
def handleSearch (query : String) (searchOutcome : Except String SearchResponse)
    (api : FetchOutcome) : UIState :=
  if strTrim query = "" then
    { errorMsg := none, answer := none, citations := none,
      searchCalled := false, synthesizeCalled := false }
  else
    match searchOutcome with
    | .error e =>
      { errorMsg := some e, answer := none, citations := none,
        searchCalled := true, synthesizeCalled := false }
    | .ok searchResults =>
      if api.ok then
        { errorMsg := none, answer := some api.answer,
          citations := some (mkCitations searchResults.results),
          searchCalled := true, synthesizeCalled := true }
      else
        { errorMsg := some ("API error: " ++ toString api.status),
          answer := none, citations := none,
          searchCalled := true, synthesizeCalled := true }

theorem mapWithIndexFrom_length (f : Nat → α → β) (start : Nat) (l : List α) :
    (mapWithIndexFrom f start l).length = l.length := by
  induction l generalizing start with
  | nil => rfl
  | cons a t ih => simp [mapWithIndexFrom, ih]

theorem mapWithIndexFrom_get (f : Nat → α → β) (start : Nat) (l : List α)
    (i : Nat) (h : i < l.length) :
    (mapWithIndexFrom f start l).get? i = some (f (start + i) (l.get ⟨i, h⟩)) := by
  induction l generalizing start i with
  | nil => exact absurd h (Nat.not_lt_zero i)
  | cons a t ih =>
    cases i with
    | zero => rfl
    | succ j =>
      have hj : j < t.length := Nat.lt_of_succ_lt_succ h
      simp only [mapWithIndexFrom, List.get?_cons_succ, List.get]
      rw [ih (start + 1) j hj]
      have harith : start + 1 + j = start + (j + 1) := by omega
      rw [harith]

/-- C1: for every non-empty list of retrieved search results, the citation
table built in `handleSearch` has exactly one entry per result, and the
entry at 1-based position `k` (0-based `i = k - 1`) carries number
`i + 1 = k` and the title, url and domain of the result at 0-based
position `i`, in input order. -/
theorem handleSearch_citation_pairing (results : List SearchResult) (_hne : results ≠ []) :
    (mkCitations results).length = results.length ∧
    ∀ (i : Nat) (hi : i < results.length),
      (mkCitations results).get? i =
        some { number := i + 1, title := (results.get ⟨i, hi⟩).title,
               url := (results.get ⟨i, hi⟩).url,
               domain := (results.get ⟨i, hi⟩).domain } := by
  refine ⟨mapWithIndexFrom_length _ 0 results, fun i hi => ?_⟩
  have h := mapWithIndexFrom_get
    (fun index result =>
      ({ number := index + 1, title := result.title, url := result.url,
         domain := result.domain } : Citation)) 0 results i hi
  simpa [mkCitations, mapWithIndex] using h

/-- Witness for C1 at the two-result AI snippet list, position 2. -/
theorem handleSearch_citation_pairing_witness :
    (mkCitations [ibmResult, stanfordResult]).get? 1 =
      some { number := 2, title := stanfordResult.title, url := stanfordResult.url,
             domain := stanfordResult.domain } :=
  (handleSearch_citation_pairing [ibmResult, stanfordResult] (by decide)).2 1 (by decide)

/-- C2: the grounding context block assembled in `synthesizeSearchResults`
is a pure function of the result list: it is the join (with a newline) of
one entry per result in input order, the entry for the result at 0-based
position `i` being labeled `[i+1]` and carrying that result's full title,
URL and snippet text unchanged. -/
theorem searchContext_entry_spec (searchResults : List SearchResult) :
    searchContext searchResults =
      String.intercalate "\n" (mapWithIndex contextEntry searchResults) ∧
    (mapWithIndex contextEntry searchResults).length = searchResults.length ∧
    ∀ (i : Nat) (hi : i < searchResults.length),
      (mapWithIndex contextEntry searchResults).get? i =
        some ("[" ++ toString (i + 1) ++ "] " ++ (searchResults.get ⟨i, hi⟩).title ++
          "\nURL: " ++ (searchResults.get ⟨i, hi⟩).url ++
          "\nContent: " ++ (searchResults.get ⟨i, hi⟩).snippet ++ "\n") := by
  refine ⟨rfl, mapWithIndexFrom_length _ 0 searchResults, fun i hi => ?_⟩
  have h := mapWithIndexFrom_get contextEntry 0 searchResults i hi
  simpa [mapWithIndex, contextEntry] using h

/-- Witness for C2 at the singleton IBM result list, position 1. -/
theorem searchContext_entry_spec_witness :
    (mapWithIndex contextEntry [ibmResult]).get? 0 =
      some ("[" ++ toString (0 + 1) ++ "] " ++ ibmResult.title ++
        "\nURL: " ++ ibmResult.url ++ "\nContent: " ++ ibmResult.snippet ++ "\n") :=
  (searchContext_entry_spec [ibmResult]).2.2 0 (by decide)

/-- Counterexample to C3: with a non-empty key that the backend rejects
(HTTP 401, invalid credential), the route's response is the generic error
path carrying the raw thrown message, not the distinct configuration-error
response — the `'API key not configured'` branch only fires for the error
thrown by `getOpenRouterClient` when the key is missing. -/
theorem post_invalid_key_generic_path :
    (POST (some "What is AI?") (some []) (some "sk-bad") none
        (.httpError 401 (some "Invalid API key"))).response ≠ configErrorResponse ∧
    (POST (some "What is AI?") (some []) (some "sk-bad") none
        (.httpError 401 (some "Invalid API key"))).response =
      { status := 500, answer := none,
        error := some "OpenRouter API error: 401 - Invalid API key" } ∧
    (POST (some "What is AI?") (some []) (some "sk-bad") none
        (.httpError 401 (some "Invalid API key"))).chatAttempts = 1 := by
  refine ⟨by decide, by decide, by decide⟩

/-- C3 (amended): when the credential is missing (no cached client, env
key absent), the route surfaces the distinct configuration-error response
with zero generation attempts; when the backend call itself fails with 401
(invalid credential) and the thrown message does not contain
`'API key not configured'`, the route surfaces the generic 500 response
carrying the raw message, after exactly one generation attempt; in every
case at most one generation attempt is made per query. -/
theorem post_auth_error_paths (q : String) (hq : q ≠ "") (results : List SearchResult)
    (msg : Option String)
    (hmsg : strIncludes (chatErrorMessage 401 msg) "API key not configured" = false) :
    (∀ outcome : HttpOutcome,
        POST (some q) (some results) none none outcome =
          { response := configErrorResponse, getClientCalled := true, chatAttempts := 0 }) ∧
    (∀ k : String, k ≠ "" →
        POST (some q) (some results) (some k) none (.httpError 401 msg) =
          { response := { status := 500, answer := none,
                          error := some (chatErrorMessage 401 msg) },
            getClientCalled := true, chatAttempts := 1 }) ∧
    (∀ (envKey : Option String) (cached : Option OpenRouterClient) (outcome : HttpOutcome),
        (POST (some q) (some results) envKey cached outcome).chatAttempts ≤ 1) := by
  have hq' : (q == "") = false := by simpa using hq
  refine ⟨fun outcome => ?_, fun k hk => ?_, fun envKey cached outcome => ?_⟩
  · simp [POST, hq', getOpenRouterClient, catchResponse, configErrorResponse, strIncludes]
  · have hk' : ¬(k = "") := hk
    simp [POST, hq', getOpenRouterClient, hk', synthesizeSearchResults, chat,
      catchResponse, hmsg]
  · rcases cached with _ | c
    · rcases envKey with _ | k
      · simp [POST, hq', getOpenRouterClient]
      · by_cases hk : k = "" <;>
          cases outcome <;>
            simp [POST, hq', getOpenRouterClient, hk, synthesizeSearchResults, chat]
    · cases outcome <;>
        simp [POST, hq', getOpenRouterClient, synthesizeSearchResults, chat]

/-- Witness for C3 (amended): missing key gives the configuration error
with no generation attempt; a 401 from the backend takes the generic path
after one attempt. -/
theorem post_auth_error_paths_witness :
    POST (some "q") (some ([] : List SearchResult)) none none (.ok "a") =
      { response := configErrorResponse, getClientCalled := true, chatAttempts := 0 } ∧
    POST (some "q") (some ([] : List SearchResult)) (some "sk") none
        (.httpError 401 (some "Invalid API key")) =
      { response := { status := 500, answer := none,
                      error := some (chatErrorMessage 401 (some "Invalid API key")) },
        getClientCalled := true, chatAttempts := 1 } :=
  ⟨(post_auth_error_paths "q" (by decide) [] (some "Invalid API key") (by decide)).1 (.ok "a"),
   (post_auth_error_paths "q" (by decide) [] (some "Invalid API key") (by decide)).2.1 "sk"
     (by decide)⟩

/-- Counterexample to C4: a rejected retrieval promise is caught by the
single try/catch of `handleSearch`, surfaced as the query's error in
component state, and the synthesize (generation) step is never invoked. -/
theorem handleSearch_retrieval_failure_surfaced :
    (handleSearch "climate change" (.error "network error")
        { ok := true, status := 200, answer := "ans" }).synthesizeCalled = false ∧
    (handleSearch "climate change" (.error "network error")
        { ok := true, status := 200, answer := "ans" }).errorMsg = some "network error" := by
  refine ⟨by decide, by decide⟩

/-- C4 (amended): for every question that passes the non-empty guard, a
retrieval failure is NOT absorbed locally: `handleSearch` catches it in
the same handler as every other failure, stores it as the query's error,
produces no answer and no citations, and never reaches the generation
step. -/
theorem handleSearch_retrieval_failure (q e : String) (hq : strTrim q ≠ "")
    (api : FetchOutcome) :
    handleSearch q (.error e) api =
      { errorMsg := some e, answer := none, citations := none,
        searchCalled := true, synthesizeCalled := false } := by
  simp [handleSearch, hq]

/-- Witness for C4 (amended) at a concrete query and failure message. -/
theorem handleSearch_retrieval_failure_witness :
    handleSearch "ai" (.error "search down") { ok := true, status := 200, answer := "a" } =
      { errorMsg := some "search down", answer := none, citations := none,
        searchCalled := true, synthesizeCalled := false } :=
  handleSearch_retrieval_failure "ai" "search down" (by decide)
    { ok := true, status := 200, answer := "a" }

/-- C5: for the empty question string, the synthesize route replies 400
with a validation error before `getOpenRouterClient` is reached and before
any generation attempt, and `handleSearch` returns before calling the
retrieval step — no external call is made. -/
theorem empty_question_rejected :
    (∀ (searchResults : Option (List SearchResult)) (envKey : Option String)
        (cached : Option OpenRouterClient) (outcome : HttpOutcome),
        POST (some "") searchResults envKey cached outcome =
          { response := { status := 400, answer := none,
                          error := some "Query and search results are required" },
            getClientCalled := false, chatAttempts := 0 }) ∧
    (∀ (searchOutcome : Except String SearchResponse) (api : FetchOutcome),
        handleSearch "" searchOutcome api =
          { errorMsg := none, answer := none, citations := none,
            searchCalled := false, synthesizeCalled := false }) := by
  constructor
  · intro searchResults envKey cached outcome
    simp [POST]
  · intro searchOutcome api
    simp [handleSearch, strTrim]

set_option maxHeartbeats 4000000 in
/-- Counterexample to C6: for an empty snippet list, neither the system
prompt nor the user prompt sent to the backend contains any instruction to
answer from general knowledge or to flag the absence of sources — the
fixed template is used unchanged, with an empty Search Results section. -/
theorem empty_snippets_no_degraded_instruction :
    strIncludes (systemPrompt ++ userPrompt "What is artificial intelligence?" [])
      "general knowledge" = false ∧
    strIncludes (systemPrompt ++ userPrompt "What is artificial intelligence?" [])
      "absence of sources" = false := by
  refine ⟨by decide, by decide⟩

/-- The user prompt built for an empty snippet list: the standard template
with an empty grounding-context section. -/
theorem userPrompt_nil (q : String) :
    userPrompt q [] =
      "Question: " ++ q ++ "\n\nSearch Results:\n\n\nPlease provide a comprehensive answer based on these search results. Include relevant citations using the format [1], [2], etc." := by
  show "Question: " ++ q ++ "\n\nSearch Results:\n" ++ searchContext [] ++ "\n\nPlease provide a comprehensive answer based on these search results. Include relevant citations using the format [1], [2], etc." = _
  have h0 : searchContext [] = "" := rfl
  rw [h0]
  simp only [String.append_empty]
  rw [String.append_assoc]
  rw [show ("\n\nSearch Results:\n" : String) ++ "\n\nPlease provide a comprehensive answer based on these search results. Include relevant citations using the format [1], [2], etc." = "\n\nSearch Results:\n\n\nPlease provide a comprehensive answer based on these search results. Include relevant citations using the format [1], [2], etc." from rfl]

/-- C6 (amended): for every non-empty question with an empty snippet list,
the route accepts the request (an empty array is truthy under the
`!searchResults` check), invokes the generation backend exactly once and
returns its answer with status 200; the messages sent are the standard
fixed template with an empty Search Results section — no special
"proceed without sources" instruction is added. -/
theorem post_empty_snippets_completes (q : String) (hq : q ≠ "") (k : String) (hk : k ≠ "")
    (content : String) :
    POST (some q) (some []) (some k) none (.ok content) =
      { response := { status := 200, answer := some content, error := none },
        getClientCalled := true, chatAttempts := 1 } ∧
    synthesizeMessages q [] =
      [{ role := .system, content := systemPrompt },
       { role := .user, content := "Question: " ++ q ++ "\n\nSearch Results:\n\n\nPlease provide a comprehensive answer based on these search results. Include relevant citations using the format [1], [2], etc." }] := by
  have hq' : (q == "") = false := by simpa using hq
  have hk' : ¬(k = "") := hk
  refine ⟨?_, ?_⟩
  · simp [POST, hq', getOpenRouterClient, hk', synthesizeSearchResults, chat]
  · simp [synthesizeMessages, userPrompt_nil]

/-- Witness for C6 (amended) at a concrete question, key and answer. -/
theorem post_empty_snippets_completes_witness :
    POST (some "What is AI?") (some []) (some "sk") none (.ok "An answer.") =
      { response := { status := 200, answer := some "An answer.", error := none },
        getClientCalled := true, chatAttempts := 1 } :=
  (post_empty_snippets_completes "What is AI?" (by decide) "sk" (by decide) "An answer.").1

/-- C7: for every query string, `searchWeb` returns at most 10 results,
and every returned entry is passed through unchanged from the immutable
mock table (via the keyword loop) or from the generic fallback
constructor — the embedding is a pure function, so no stored entry is
mutated and each call yields the same fresh list for the same query. -/
theorem searchWeb_bounded_unmutated (query : String) :
    (searchWeb query).results.length ≤ 10 ∧
    ∀ r ∈ (searchWeb query).results,
      r ∈ matchedResults query ∨ r ∈ genericResults query := by
  constructor
  · unfold searchWeb
    simp [List.length_take]
  · intro r hr
    unfold searchWeb at hr
    simp only at hr
    have hr2 := List.mem_of_mem_take hr
    by_cases h : (matchedResults query).length = 0
    · right; simpa [h] using hr2
    · left; simpa [h] using hr2

set_option maxHeartbeats 1000000 in
/-- Witness for C7: the IBM entry of the "artificial intelligence" query
comes from the keyword-matched mock table. -/
theorem searchWeb_bounded_unmutated_witness :
    (searchWeb "artificial intelligence").results.length ≤ 10 ∧
    (ibmResult ∈ matchedResults "artificial intelligence" ∨
      ibmResult ∈ genericResults "artificial intelligence") :=
  ⟨(searchWeb_bounded_unmutated "artificial intelligence").1,
   (searchWeb_bounded_unmutated "artificial intelligence").2 ibmResult (by decide)⟩

set_option maxHeartbeats 1000000 in
/-- C8: end-to-end scenario for the question
"What is artificial intelligence?": retrieval returns exactly the IBM
result (domain ibm.com) then the Stanford result (domain stanford.edu);
the citation table is [{1, ibm.com}, {2, stanford.edu}] with titles and
urls; and the grounding context contains both snippets labeled [1] and
[2] in that order. -/
theorem end_to_end_ai_scenario :
    searchWeb "What is artificial intelligence?" =
      { results := [ibmResult, stanfordResult], totalResults := 2 } ∧
    mkCitations (searchWeb "What is artificial intelligence?").results =
      [{ number := 1, title := "What is Artificial Intelligence (AI)? | IBM",
         url := "https://www.ibm.com/topics/artificial-intelligence", domain := "ibm.com" },
       { number := 2, title := "Artificial Intelligence | Stanford HAI",
         url := "https://hai.stanford.edu/what-ai", domain := "stanford.edu" }] ∧
    searchContext (searchWeb "What is artificial intelligence?").results =
      "[1] What is Artificial Intelligence (AI)? | IBM\nURL: https://www.ibm.com/topics/artificial-intelligence\nContent: Artificial intelligence leverages computers and machines to mimic the problem-solving and decision-making capabilities of the human mind.\n\n[2] Artificial Intelligence | Stanford HAI\nURL: https://hai.stanford.edu/what-ai\nContent: AI is a broad field of computer science concerned with building smart machines capable of performing tasks that typically require human intelligence.\n" := by
  refine ⟨by decide, by decide, by decide⟩

/-- Case split on the keyword loop: over the two-entry mock table the
accumulated matches are empty or hold at least two results. -/
theorem matchedResults_cases (query : String) :
    matchedResults query = [] ∨ 2 ≤ (matchedResults query).length := by
  unfold matchedResults mockSearchResults
  cases h1 : strIncludes (strToLower query) "climate change" <;>
    cases h2 : strIncludes (strToLower query) "artificial intelligence" <;>
      simp [h1, h2, List.foldl]

/-- C9: for every query string, `searchWeb` returns at least two results;
when no mock keyword matches, the two generic fallback results (domains
example.com and research.example.com) are substituted, so this retrieval
source never yields the empty sequence. -/
theorem searchWeb_never_empty (query : String) :
    2 ≤ (searchWeb query).results.length ∧
    (matchedResults query = [] →
      (searchWeb query).results = genericResults query ∧
      (searchWeb query).results.map SearchResult.domain =
        ["example.com", "research.example.com"]) := by
  constructor
  · rcases matchedResults_cases query with h | h
    · unfold searchWeb
      simp [h, genericResults, List.take]
    · unfold searchWeb
      have hne : ¬((matchedResults query).length = 0) := by omega
      simp [hne, List.length_take]
      omega
  · intro h
    unfold searchWeb
    simp [h, genericResults, List.take]

/-- Witness for C9 at a query matching no mock keyword. -/
theorem searchWeb_never_empty_witness :
    (searchWeb "xyz").results = genericResults "xyz" ∧
    (searchWeb "xyz").results.map SearchResult.domain =
      ["example.com", "research.example.com"] :=
  (searchWeb_never_empty "xyz").2 (by decide)

/-- Counterexample to C10: with no cached client and the environment
variable set to the empty string (set, not unset), `getOpenRouterClient`
still throws the configuration error — the `!apiKey` check treats the
empty string as missing. -/
theorem getOpenRouterClient_empty_string_env_throws :
    getOpenRouterClient (some "") none = .error "OpenRouter API key not configured" ∧
    (some "" : Option String) ≠ none := by
  refine ⟨rfl, by decide⟩

/-- C10 (amended): on a fresh state, `getOpenRouterClient` throws
'OpenRouter API key not configured' iff the environment variable is unset
or set to the empty string; with a cached client it never throws and
returns that exact client unchanged; after a first successful call read
key `k`, every later call returns the identical cached client holding
`k`, whatever the environment variable holds by then. -/
theorem getOpenRouterClient_singleton_spec (env env2 : Option String) (k : String)
    (hk : k ≠ "") (c : OpenRouterClient) :
    ((getOpenRouterClient env none = .error "OpenRouter API key not configured") ↔
      (env = none ∨ env = some "")) ∧
    getOpenRouterClient env (some c) = .ok (c, some c) ∧
    getOpenRouterClient (some k) none = .ok ({ apiKey := k }, some { apiKey := k }) ∧
    getOpenRouterClient env2 (some { apiKey := k }) =
      .ok ({ apiKey := k }, some { apiKey := k }) := by
  refine ⟨?_, rfl, by simp [getOpenRouterClient, hk], rfl⟩
  rcases env with _ | s
  · simp [getOpenRouterClient]
  · by_cases hs : s = "" <;> simp [getOpenRouterClient, hs]

/-- Witness for C10 (amended): after caching the client for key "sk", a
call with the variable now unset returns the same client. -/
theorem getOpenRouterClient_singleton_spec_witness :
    getOpenRouterClient none (some { apiKey := "sk" }) =
      .ok ({ apiKey := "sk" }, some { apiKey := "sk" }) :=
  (getOpenRouterClient_singleton_spec (some "") none "sk" (by decide)
    { apiKey := "x" }).2.2.2
